/-
Verification of the validation-and-query-construction core of the
`my_sqlalchemy` wrapper (`src/my_sqlalchemy/my_sqlalchemy.py` and friends).

The embedding is a shallow one:

* Python runtime values that can live in a column are `PyValue`; declared
  column types (`column.type.python_type`) are `PyType`.
* A SQLAlchemy model class is a `Model`: a name plus its declared column
  descriptors in declaration order (`Model.get_columns` mirrors
  `StandardModel.get_columns().keys()`).
* Exceptions are `Except PyError`.  Each `PyError` constructor carries the
  pieces the corresponding Python f-string interpolates; `renderError`
  reproduces the message text (Python's incidental `repr` artifacts such as
  `dict_keys([...])` wrappers are abstracted to the underlying list).
* The database is a `Store` (a list of rows, each row a column-name/value
  association list for the one table an operation targets).  The driver is
  abstracted by a `fault : Option String` parameter: `none` means execution
  inside the session succeeds, `some e` means the driver raises with
  message `e`.  `utils.utc_now()` is abstracted by an explicit `now`
  argument threaded into `update`.
* `get_session` embeds the `@contextmanager` of the same name as a function
  from the body's outcome (and a possible commit failure) to the overall
  outcome plus the ordered list of session events (commit/rollback/close).
-/
import Mathlib

set_option autoImplicit false

namespace MySqlAlchemy

/-- Declared semantic column types (`column.type.python_type` in the code). -/
inductive PyType where
  | int
  | str
  | bool
  | datetime
  deriving DecidableEq

/-- Python runtime values storable in a column; `vNone` is Python's `None`.
Datetimes are abstracted to a tick count. -/
inductive PyValue where
  | vNone
  | vInt (n : Int)
  | vStr (s : String)
  | vBool (b : Bool)
  | vDatetime (t : Nat)
  deriving DecidableEq

/-- `expected_python_type.__name__` in `asserter.columns_values_are_same_type`. -/
def PyType.typeName : PyType → String
  | .int => "int"
  | .str => "str"
  | .bool => "bool"
  | .datetime => "datetime"

/-- `type(value).__name__` in `asserter.columns_values_are_same_type`. -/
def PyValue.typeName : PyValue → String
  | .vNone => "NoneType"
  | .vInt _ => "int"
  | .vStr _ => "str"
  | .vBool _ => "bool"
  | .vDatetime _ => "datetime"

/-- Python's `isinstance(value, expected_python_type)`; `bool` is a subclass
of `int` in Python, so a `vBool` is an instance of `int`. -/
def pyIsinstance : PyValue → PyType → Bool
  | .vInt _, .int => true
  | .vBool _, .int => true
  | .vStr _, .str => true
  | .vBool _, .bool => true
  | .vDatetime _, .datetime => true
  | _, _ => false

/-- Python's `f"{value}"` for the values above. -/
def PyValue.render : PyValue → String
  | .vNone => "None"
  | .vInt n => toString n
  | .vStr s => s
  | .vBool b => if b then "True" else "False"
  | .vDatetime t => toString t

/-- One declared column of a model (`sqlalchemy.Column`): its name, its
`python_type`, its nullability and whether it is the primary key. -/
structure ColumnDescriptor where
  name : String
  pyType : PyType
  nullable : Bool
  primaryKey : Bool
  deriving DecidableEq

/-- A model class registered with the wrapper: `__name__` plus the declared
columns of `__table__.columns` in declaration order. -/
structure Model where
  name : String
  columns : List ColumnDescriptor
  deriving DecidableEq

/-- `model.get_columns().keys()` from `StandardModel.get_columns`: the names
of all table columns in declaration order (the primary key included). -/
def Model.get_columns (m : Model) : List String :=
  m.columns.map (fun c => c.name)

/-- `model.__table__.primary_key.columns.values()[0].name`.  Models accepted
by `ModelsHandler` inherit from `StandardModel` and therefore always carry
the `id` primary key, so the `getD` default is never reached for registered
models. -/
def Model.pkName (m : Model) : String :=
  ((m.columns.find? (fun c => c.primaryKey)).map (fun c => c.name)).getD ""

/-- One item of the error list built by `asserter.columns_values_are_same_type`:
either the non-nullable-column-got-None message or the type-mismatch message,
each carrying exactly the fields its f-string interpolates. -/
inductive TypeErrItem where
  | noneNotAccepted (column : String)
  | typeMismatch (column : String) (expected : String) (value : PyValue) (actual : String)
  deriving DecidableEq

/-- The exceptions the embedded code can raise, one constructor per `raise`
site, carrying the interpolated fields of the corresponding message. -/
inductive PyError where
  | unknownModel (offending : String) (registeredNames : List String)
  | invalidColumns (reported : List String) (modelName : String) (validColumns : List String)
  | primaryKeyIncluded (pk : String) (msg : String)
  | invalidData (position : Nat) (typeName : String) (modelName : String)
  | typeErr (title : String) (items : List TypeErrItem)
  | execError (msg : String)
  deriving DecidableEq

/-- A single-quote character, for reproducing Python message texts. -/
def sq : String := String.singleton (Char.ofNat 39)

/-- Wrap a string in single quotes, Python `repr`-style for simple strings. -/
def quoted (s : String) : String := sq ++ s ++ sq

/-- Python's `str` of a list of strings: `[` `repr`s joined by `, ` `]`. -/
def pyStrList (l : List String) : String :=
  "[" ++ String.intercalate ", " (l.map quoted) ++ "]"

/-- The message text of one `columns_values_are_same_type` error item,
verbatim from `asserter.py`. -/
def TypeErrItem.render : TypeErrItem → String
  | .noneNotAccepted c =>
      "Column " ++ quoted c ++ " does not accept None values."
  | .typeMismatch c e v a =>
      "Column " ++ quoted c ++ " expects values of type " ++ quoted e ++
        ", but got value " ++ quoted v.render ++ " of type " ++ quoted a ++ "."

/-- `str(e)` for the exceptions above, following the source f-strings. -/
def renderError : PyError → String
  | .unknownModel n names =>
      "The model " ++ n ++ " is not mapped. Valid models are: " ++ pyStrList names ++
        ".\n\nUse self.models.all_models() to check valid models."
  | .invalidColumns reported mn valid =>
      "Invalid columns " ++ pyStrList reported ++ " for model " ++ quoted mn ++
        ". Valid columns are: " ++ pyStrList valid
  | .primaryKeyIncluded pk msg =>
      "Primary key column " ++ quoted pk ++ " cannot be included" ++ msg
  | .invalidData i t mn =>
      "The data in position " ++ toString i ++ " is invalid (" ++ t ++
        "). It must be a dict or a " ++ mn ++ "."
  | .typeErr title items =>
      title ++ String.intercalate " | " (items.map TypeErrItem.render)
  | .execError msg => msg

/-- Sequencing of a validation step before the rest of an operation:
`raise` on failure, continue otherwise. -/
def seqE {α : Type} (v : Except PyError Unit) (k : Except PyError α) : Except PyError α :=
  match v with
  | .error e => .error e
  | .ok _ => k

/-- `MySQLAlchemy._assert_model`: membership of the model in
`self.models.models_list`, else an `AssertionError` naming the model and
listing `self.models.models_list_names`. -/
def assert_model (registered : List Model) (m : Model) : Except PyError Unit :=
  if m ∈ registered then .ok ()
  else .error (.unknownModel m.name (registered.map Model.name))

/-- `MySQLAlchemy._assert_columns_in_model` for a model class (the
`DeclarativeMeta` case, the one every operation uses): when
`excludePrimaryKey` is set the primary-key name is filtered out of both the
checked list and the valid list before the subset assertion, and afterwards
the original list is searched for the primary-key name. -/
def assert_columns_in_model (m : Model) (columns : List String)
    (excludePrimaryKey : Bool) (msg : String) : Except PyError Unit :=
  let pkColumn := m.pkName
  let columnsToCheck :=
    if excludePrimaryKey then columns.filter (fun c => c ≠ pkColumn) else columns
  let possible :=
    if excludePrimaryKey then m.get_columns.filter (fun c => c ≠ pkColumn)
    else m.get_columns
  if columnsToCheck.all (fun c => possible.contains c) then
    if excludePrimaryKey && columns.contains pkColumn then
      .error (.primaryKeyIncluded pkColumn msg)
    else .ok ()
  else .error (.invalidColumns columnsToCheck m.name possible)

/-- `asserter.columns_values_are_same_type`'s error-collection loop, one
item per offending `(column, value)` pair in order. -/
def typeErrItems : List (ColumnDescriptor × PyValue) → List TypeErrItem
  | [] => []
  | (c, v) :: rest =>
      if v = .vNone ∧ c.nullable = false then
        .noneNotAccepted c.name :: typeErrItems rest
      else if pyIsinstance v c.pyType = false then
        .typeMismatch c.name c.pyType.typeName v v.typeName :: typeErrItems rest
      else typeErrItems rest

/-- `asserter.columns_values_are_same_type`: collect the per-pair errors and
raise a `TypeError` joining them when any exist.  The Python signature takes
two parallel lists and zips them; the zipped pairs are passed here. -/
def columns_values_are_same_type (title : String)
    (pairs : List (ColumnDescriptor × PyValue)) : Except PyError Unit :=
  let errors := typeErrItems pairs
  if errors.isEmpty then .ok () else .error (.typeErr title errors)

/-- The events `MySQLAlchemy.get_session` performs on the session object. -/
inductive SessionEvent where
  | commit
  | rollback
  | close
  deriving DecidableEq

/-- `MySQLAlchemy.get_session` as a scope runner: given the outcome of the
body of the `with` block and whether `session.commit()` itself fails, it
yields the overall outcome together with the session events in order
(`try: yield; commit / except: rollback; raise / finally: close`). -/
def get_session {α : Type} (body : Except PyError α) (commitFail : Option PyError) :
    Except PyError α × List SessionEvent :=
  match body with
  | .error e => (.error e, [.rollback, .close])
  | .ok a =>
      match commitFail with
      | none => (.ok a, [.commit, .close])
      | some e => (.error e, [.rollback, .close])

/-- Execution of one operation's body inside `get_session`, with the driver
abstracted by `fault`: `some e` means the work inside the scope raises with
message `e`, `none` means it succeeds producing `result`. -/
def scopedExec {α : Type} (fault : Option String) (result : α) :
    Except PyError α × List SessionEvent :=
  get_session (match fault with
    | some e => .error (.execError e)
    | none => .ok result) none

/-- A stored row / a Python dict of column values: an association list from
column name to value (keys unique, as in a Python dict). -/
abbrev Row := List (String × PyValue)

/-- The rows of the table an operation targets. -/
abbrev Store := List Row

/-- Dictionary / attribute read: the value at a key, `none` when absent. -/
def rowGet (r : Row) (c : String) : Option PyValue :=
  match r with
  | [] => none
  | (k, v) :: rest => if k = c then some v else rowGet rest c

/-- Dictionary assignment `d[k] = v`: replace at an existing key, else
append. -/
def setValue (r : Row) (c : String) (v : PyValue) : Row :=
  match r with
  | [] => [(c, v)]
  | (k, w) :: rest => if k = c then (c, v) :: rest else (k, w) :: setValue rest c v

/-- Apply an UPDATE's SET mapping to one row, column by column in order. -/
def applyValues (vals : List (String × PyValue)) (r : Row) : Row :=
  vals.foldl (fun acc cv => setValue acc cv.1 cv.2) r

/-- The WHERE clause built by `construct_where_clause`: a conjunction of
column = value equalities, one per keyword argument. -/
def rowMatches (queryKwargs : List (String × PyValue)) (r : Row) : Bool :=
  queryKwargs.all (fun cv => decide (rowGet r cv.1 = some cv.2))

/-- Projection of a row onto the selected columns, in selection order
(`result.mappings()` keyed by the selected columns). -/
def projectRow (cols : List String) (r : Row) : Row :=
  cols.map (fun c => (c, (rowGet r c).getD .vNone))

/-- Python truthiness of an optional list argument: `None` and `[]`/`{}` are
both falsy (`if columns_to_return:` / `if columns_to_order_by:`). -/
def truthy {α : Type} : Option (List α) → Bool
  | none => false
  | some l => !l.isEmpty

/-- Python truthiness of the `limit` argument: `None` and `0` are falsy
(`if limit:`). -/
def truthyLimit : Option Nat → Bool
  | none => false
  | some n => decide (n ≠ 0)

/-- The projection chosen by `MySQLAlchemy.select` for a model class: the
caller's list when truthy, else `model.get_columns().keys()` — every
declared column, the primary key included. -/
def selectColumns (m : Model) (columnsToSelect : Option (List String)) : List String :=
  if truthy columnsToSelect then columnsToSelect.getD [] else m.get_columns

/-- Constructor rank used to totalise the value order across constructors. -/
def PyValue.rank : PyValue → Nat
  | .vNone => 0
  | .vBool _ => 1
  | .vInt _ => 2
  | .vStr _ => 3
  | .vDatetime _ => 4

/-- A total `≤` on stored values, denoting the database engine's ordering of
a column (same-typed values compare by value; columns are homogeneously
typed so the cross-constructor case is immaterial). -/
def pvLe : PyValue → PyValue → Bool
  | .vInt x, .vInt y => decide (x ≤ y)
  | .vStr x, .vStr y => decide (x ≤ y)
  | .vBool x, .vBool y => !x || y
  | .vDatetime x, .vDatetime y => decide (x ≤ y)
  | a, b => decide (a.rank ≤ b.rank)

/-- Lexicographic row comparison along an ORDER BY spec: each entry is a
column name and `true` for ascending / `false` for descending, as in
`columns_to_order_by`. -/
def rowLe (spec : List (String × Bool)) (r1 r2 : Row) : Bool :=
  match spec with
  | [] => true
  | (c, asc) :: rest =>
      let v1 := (rowGet r1 c).getD .vNone
      let v2 := (rowGet r2 c).getD .vNone
      if v1 = v2 then rowLe rest r1 r2
      else if asc then pvLe v1 v2 else pvLe v2 v1

/-- Insertion into a list sorted by `le`. -/
def insertSorted (le : Row → Row → Bool) (r : Row) : List Row → List Row
  | [] => [r]
  | x :: xs => if le r x then r :: x :: xs else x :: insertSorted le r xs

/-- Insertion sort of the result rows, denoting the engine's ORDER BY. -/
def sortRows (le : Row → Row → Bool) : List Row → List Row
  | [] => []
  | x :: xs => insertSorted le x (sortRows le xs)

/-- A model instance passed to or built by `add`: its class name and its
set attribute values. -/
structure Instance where
  modelName : String
  values : List (String × PyValue)
  deriving DecidableEq

/-- One element of `add`'s `data` list: a plain dict of column values or an
already-constructed model instance. -/
inductive AddItem where
  | dict (pairs : List (String × PyValue))
  | inst (x : Instance)
  deriving DecidableEq

/-- The body of `add`'s per-item loop at position `i`: a dict is validated
(`exclude_primary_key=True`) and replaced by `model(**item_data)`; an
instance of the target model is checked for a set primary-key value (the
instance branch of `_assert_columns_in_model`, where the subset check is
vacuous because the checked names are the schema's own); anything else
raises the invalid-data `AssertionError`. -/
def assertAddItem (m : Model) (i : Nat) : AddItem → Except PyError AddItem
  | .dict pairs =>
      seqE (assert_columns_in_model m (pairs.map Prod.fst) true " when adding new instances.")
        (.ok (.inst ⟨m.name, pairs⟩))
  | .inst x =>
      if x.modelName = m.name then
        if (rowGet x.values m.pkName).getD .vNone ≠ .vNone then
          .error (.primaryKeyIncluded m.pkName " when adding new instances.")
        else .ok (.inst x)
      else .error (.invalidData i x.modelName m.name)

/-- `add`'s validation-and-conversion loop over `data`, starting at position
`i`; Python rewrites the caller's list in place, embedded here as returning
the rewritten list. -/
def convertAddData (m : Model) : List AddItem → Nat → Except PyError (List AddItem)
  | [], _ => .ok []
  | item :: rest, i =>
      match assertAddItem m i item with
      | .error e => .error e
      | .ok item' =>
          match convertAddData m rest (i + 1) with
          | .error e => .error e
          | .ok rest' => .ok (item' :: rest')

/-- The row the database stores for one converted item: the instance's set
attributes laid out over the schema columns (database-assigned defaults for
absent columns are outside this embedding and left as `None`). -/
def insertRow (m : Model) : AddItem → Row
  | .dict pairs => pairs
  | .inst x => projectRow m.get_columns x.values

/-- The dictionary `add` returns: `{"success": True}` or
`{"success": False, "error": str(e)}`. -/
inductive AddResult where
  | success
  | failure (error : String)
  deriving DecidableEq

/-- `MySQLAlchemy.add`: assert the model, validate and convert every data
item (exceptions propagate), then run the insert inside `get_session`;
failures raised inside that scope are caught and returned as a structured
failure result.  The third component is the caller's `data` list after the
in-place rewriting. -/
def add (registered : List Model) (m : Model) (data : List AddItem) (st : Store)
    (fault : Option String) : Except PyError (AddResult × Store × List AddItem) :=
  seqE (assert_model registered m)
    (match convertAddData m data 0 with
     | .error e => .error e
     | .ok data' =>
         match (scopedExec fault (st ++ data'.map (insertRow m))).1 with
         | .ok st' => .ok (.success, st', data')
         | .error e => .ok (.failure (renderError e), st, data'))

/-- `MySQLAlchemy.delete`: assert model and filter columns, delete the rows
matching the conjunction of equality filters inside `get_session`, and
return the rowcount; an empty filter deletes every row. -/
def delete (registered : List Model) (m : Model) (queryKwargs : List (String × PyValue))
    (st : Store) (fault : Option String) : Except PyError (Nat × Store) :=
  seqE (assert_model registered m)
    (seqE (assert_columns_in_model m (queryKwargs.map Prod.fst) false "")
      ((scopedExec fault
        ((st.filter (fun r => rowMatches queryKwargs r)).length,
          st.filter (fun r => !rowMatches queryKwargs r))).1))

/-- `MySQLAlchemy.get`: assert model, filter columns, requested columns and
order-by columns (the latter two only when truthy); then WHERE, ORDER BY,
LIMIT (`if limit:` — a falsy limit, `None` or `0`, applies no limit) and the
projection of `result.mappings()`, all inside `get_session`. -/
def get (registered : List Model) (m : Model) (limit : Option Nat)
    (columnsToReturn : Option (List String)) (columnsToOrderBy : Option (List (String × Bool)))
    (queryKwargs : List (String × PyValue)) (st : Store) (fault : Option String) :
    Except PyError (List Row) :=
  seqE (assert_model registered m)
    (seqE (assert_columns_in_model m (queryKwargs.map Prod.fst) false "")
      (seqE (if truthy columnsToReturn then
               assert_columns_in_model m (columnsToReturn.getD []) false ""
             else .ok ())
        (seqE (if truthy columnsToOrderBy then
                 assert_columns_in_model m ((columnsToOrderBy.getD []).map Prod.fst) false ""
               else .ok ())
          (let cols := selectColumns m columnsToReturn
           let matched := st.filter (fun r => rowMatches queryKwargs r)
           let ordered :=
             if truthy columnsToOrderBy then
               sortRows (rowLe (columnsToOrderBy.getD [])) matched
             else matched
           let limited :=
             if truthyLimit limit then ordered.take (limit.getD 0) else ordered
           (scopedExec fault (limited.map (projectRow cols))).1))))

/-- `MySQLAlchemy.update`: assert model, filter columns and (primary key
excluded) update columns; then `data_to_be_updated["updated_at"] = utc_now()`
forcibly overrides any caller value, and the rows matching the filter get
the SET mapping applied inside `get_session`; returns the rowcount and the
new store. -/
def update (registered : List Model) (m : Model) (dataToBeUpdated : List (String × PyValue))
    (queryKwargs : List (String × PyValue)) (now : Nat) (st : Store) (fault : Option String) :
    Except PyError (Nat × Store) :=
  seqE (assert_model registered m)
    (seqE (assert_columns_in_model m (queryKwargs.map Prod.fst) false "")
      (seqE (assert_columns_in_model m (dataToBeUpdated.map Prod.fst) true
              " in the updated values when updating instances.")
        (let vals := setValue dataToBeUpdated "updated_at" (.vDatetime now)
         (scopedExec fault
           ((st.filter (fun r => rowMatches queryKwargs r)).length,
             st.map (fun r => if rowMatches queryKwargs r then applyValues vals r else r))).1)))

/-- `MySQLAlchemy.count`: assert model and filter columns, then COUNT the
matching rows inside `get_session`. -/
def count (registered : List Model) (m : Model) (queryKwargs : List (String × PyValue))
    (st : Store) (fault : Option String) : Except PyError Nat :=
  seqE (assert_model registered m)
    (seqE (assert_columns_in_model m (queryKwargs.map Prod.fst) false "")
      ((scopedExec fault (st.filter (fun r => rowMatches queryKwargs r)).length).1))

/-- A sample entity in the shape every registered model has (the
`StandardModel` base columns plus one payload column). -/
def widgetModel : Model :=
  ⟨"Widget",
    [⟨"id", .int, false, true⟩,
     ⟨"created_at", .datetime, false, false⟩,
     ⟨"updated_at", .datetime, false, false⟩,
     ⟨"name", .str, false, false⟩]⟩

/-- A model that is never registered, for the unknown-entity scenarios. -/
def strayModel : Model :=
  ⟨"Stray",
    [⟨"id", .int, false, true⟩,
     ⟨"created_at", .datetime, false, false⟩,
     ⟨"updated_at", .datetime, false, false⟩,
     ⟨"label", .str, false, false⟩]⟩

/-- A registry holding the sample entity. -/
def sampleRegistry : List Model := [widgetModel]

/-- A stored row of the sample entity. -/
def sampleRow1 : Row :=
  [("id", .vInt 1), ("created_at", .vDatetime 10), ("updated_at", .vDatetime 10),
   ("name", .vStr "a")]

/-- A second stored row of the sample entity. -/
def sampleRow2 : Row :=
  [("id", .vInt 2), ("created_at", .vDatetime 20), ("updated_at", .vDatetime 20),
   ("name", .vStr "b")]

/-- A store holding the two sample rows. -/
def sampleStore : Store := [sampleRow1, sampleRow2]

/-- Does `needle` start the character list `hay`? -/
def startsWithChars : List Char → List Char → Bool
  | [], _ => true
  | _ :: _, [] => false
  | a :: as, b :: bs => if a = b then startsWithChars as bs else false

/-- Does `needle` occur contiguously inside `hay`? -/
def containsChars (hay needle : List Char) : Bool :=
  match hay with
  | [] => needle.isEmpty
  | _ :: rest => startsWithChars needle hay || containsChars rest needle

/-- Substring occurrence on strings, used to reason about what an error
message does and does not name. -/
def strContains (hay needle : String) : Bool :=
  containsChars hay.toList needle.toList

/-- The error item a single `(column, value)` pair produces, phrased after
the spec's words (fails when the value is `None` for a non-nullable column,
or when the value's runtime type is not an instance of the declared type),
for comparison with the loop `typeErrItems` translated from the code. -/
def itemFor (cv : ColumnDescriptor × PyValue) : Option TypeErrItem :=
  if cv.2 = .vNone ∧ cv.1.nullable = false then
    some (.noneNotAccepted cv.1.name)
  else if pyIsinstance cv.2 cv.1.pyType = false then
    some (.typeMismatch cv.1.name cv.1.pyType.typeName cv.2 cv.2.typeName)
  else none

/-- Validity of one `(column, value)` pair phrased after the spec: not a
`None` for a non-nullable column, and the runtime value an instance of the
declared type (note a `None` is an instance of no declared type, so a
`None` on a nullable column is still invalid). -/
def specValidPair (cv : ColumnDescriptor × PyValue) : Bool :=
  !(decide (cv.2 = PyValue.vNone ∧ cv.1.nullable = false)) && pyIsinstance cv.2 cv.1.pyType

theorem rowGet_setValue_self (r : Row) (c : String) (v : PyValue) :
    rowGet (setValue r c v) c = some v := by
  induction r with
  | nil => simp [setValue, rowGet]
  | cons p rest ih =>
      obtain ⟨k, w⟩ := p
      by_cases h : k = c
      · simp [setValue, h, rowGet]
      · simp [setValue, h, rowGet, ih]

theorem rowGet_setValue_other (r : Row) (k c : String) (v : PyValue) (h : k ≠ c) :
    rowGet (setValue r k v) c = rowGet r c := by
  induction r with
  | nil => simp [setValue, rowGet, h]
  | cons p rest ih =>
      obtain ⟨k', w⟩ := p
      by_cases h' : k' = k
      · simp [setValue, h', rowGet, h]
      · simp only [setValue, if_neg h', rowGet]
        by_cases h'' : k' = c
        · simp [h'']
        · simp [h'', ih]

theorem rowGet_applyValues_of_not_mem (vals : List (String × PyValue)) (r : Row)
    (c : String) (h : c ∉ vals.map Prod.fst) :
    rowGet (applyValues vals r) c = rowGet r c := by
  induction vals generalizing r with
  | nil => simp [applyValues]
  | cons p rest ih =>
      obtain ⟨k, w⟩ := p
      simp only [List.map_cons, List.mem_cons] at h
      push_neg at h
      have : applyValues ((k, w) :: rest) r = applyValues rest (setValue r k w) := rfl
      rw [this, ih _ h.2, rowGet_setValue_other _ _ _ _ (fun hk => h.1 hk.symm)]

theorem keys_setValue (r : Row) (c : String) (v : PyValue) :
    (setValue r c v).map Prod.fst =
      if c ∈ r.map Prod.fst then r.map Prod.fst else r.map Prod.fst ++ [c] := by
  induction r with
  | nil => simp [setValue]
  | cons p rest ih =>
      obtain ⟨k, w⟩ := p
      by_cases h' : k = c
      · simp [setValue, h']
      · have hne : ¬ c = k := fun hc => h' hc.symm
        simp only [setValue, if_neg h', List.map_cons, List.mem_cons, hne, false_or]
        rw [ih]
        by_cases hmem : c ∈ rest.map Prod.fst
        · simp [hmem]
        · simp [hmem]

theorem keys_setValue_nodup (r : Row) (c : String) (v : PyValue)
    (h : (r.map Prod.fst).Nodup) : ((setValue r c v).map Prod.fst).Nodup := by
  rw [keys_setValue]
  by_cases hmem : c ∈ r.map Prod.fst
  · simpa [hmem] using h
  · simp only [hmem, if_neg, ite_false, List.nodup_append, h, List.nodup_singleton,
      true_and]
    intro x hx
    simp only [List.mem_singleton]
    intro hxc
    exact hmem (hxc ▸ hx)

theorem rowGet_applyValues_of_rowGet (vals : List (String × PyValue)) (r : Row)
    (c : String) (v : PyValue) (hnd : (vals.map Prod.fst).Nodup)
    (hl : rowGet vals c = some v) :
    rowGet (applyValues vals r) c = some v := by
  induction vals generalizing r with
  | nil => simp [rowGet] at hl
  | cons p rest ih =>
      obtain ⟨k, w⟩ := p
      simp only [List.map_cons, List.nodup_cons] at hnd
      have hstep : applyValues ((k, w) :: rest) r = applyValues rest (setValue r k w) := rfl
      by_cases h : k = c
      · subst h
        simp only [rowGet, if_pos rfl] at hl
        rw [hstep, rowGet_applyValues_of_not_mem rest _ k hnd.1,
          rowGet_setValue_self]
        exact congrArg some (Option.some.inj hl)
      · simp only [rowGet, if_neg h] at hl
        rw [hstep]
        exact ih _ hnd.2 hl

theorem typeErrItems_eq_filterMap (l : List (ColumnDescriptor × PyValue)) :
    typeErrItems l = l.filterMap itemFor := by
  induction l with
  | nil => simp [typeErrItems]
  | cons p rest ih =>
      obtain ⟨c, v⟩ := p
      by_cases h1 : v = PyValue.vNone ∧ c.nullable = false
      · simp [typeErrItems, itemFor, h1, List.filterMap_cons, ih]
      · by_cases h2 : pyIsinstance v c.pyType = false
        · simp [typeErrItems, itemFor, h1, h2, List.filterMap_cons, ih]
        · simp [typeErrItems, itemFor, h1, h2, List.filterMap_cons, ih]

theorem assertAddItem_dict_ok (m : Model) (i : Nat) (pairs : List (String × PyValue))
    (item' : AddItem) (h : assertAddItem m i (.dict pairs) = .ok item') :
    item' = .inst ⟨m.name, pairs⟩ := by
  rw [show assertAddItem m i (AddItem.dict pairs) =
        seqE (assert_columns_in_model m (pairs.map Prod.fst) true " when adding new instances.")
          (.ok (.inst ⟨m.name, pairs⟩)) from rfl] at h
  unfold seqE at h
  split at h
  · simp at h
  · injection h with h2
    exact h2.symm

theorem convertAddData_pointwise (m : Model) (data data' : List AddItem) (i : Nat)
    (h : convertAddData m data i = .ok data') :
    data'.length = data.length ∧
      ∀ k (h1 : k < data.length) (h2 : k < data'.length) pairs,
        data.get ⟨k, h1⟩ = .dict pairs → data'.get ⟨k, h2⟩ = .inst ⟨m.name, pairs⟩ := by
  induction data generalizing data' i with
  | nil =>
      cases h
      exact ⟨rfl, fun k h1 => absurd h1 (Nat.not_lt_zero k)⟩
  | cons item rest ih =>
      revert h
      unfold convertAddData
      cases hi : assertAddItem m i item with
      | error e => intro h; cases h
      | ok item' =>
          cases hr : convertAddData m rest (i + 1) with
          | error e => intro h; cases h
          | ok rest' =>
              intro h
              cases h
              obtain ⟨hlen, hpt⟩ := ih rest' (i + 1) hr
              refine ⟨by simp [hlen], ?_⟩
              intro k h1 h2 pairs hk
              cases k with
              | zero =>
                  simp only [List.get] at hk ⊢
                  subst hk
                  exact assertAddItem_dict_ok m i pairs item' hi
              | succ k' =>
                  simp only [List.get] at hk ⊢
                  exact hpt k' (Nat.lt_of_succ_lt_succ h1) (Nat.lt_of_succ_lt_succ h2) pairs hk

/-- C2: every operation executed through the session scope commits when the
body and commit complete; on any exception (from the body or from the
commit itself) it rolls back and re-raises the original exception
unchanged; and on every exit path the session is closed last. -/
theorem get_session_scoped_semantics {α : Type} :
    (∀ (a : α), get_session (Except.ok a) none =
      (Except.ok a, [SessionEvent.commit, SessionEvent.close])) ∧
    (∀ (a : α) (e : PyError), get_session (Except.ok a) (some e) =
      (Except.error e, [SessionEvent.rollback, SessionEvent.close])) ∧
    (∀ (e : PyError) (cf : Option PyError), get_session (α := α) (Except.error e) cf =
      (Except.error e, [SessionEvent.rollback, SessionEvent.close])) ∧
    (∀ (body : Except PyError α) (cf : Option PyError),
      (get_session body cf).2.getLast? = some SessionEvent.close) := by
  refine ⟨fun a => rfl, fun a e => rfl, fun e cf => rfl, fun body cf => ?_⟩
  cases body with
  | error e => rfl
  | ok a =>
      cases cf with
      | none => rfl
      | some e => rfl

/-- C3 counterexample: a `get` call with `limit = 0` does not fail with an
InvalidArgument error; it returns every matching row, because `if limit:`
treats a zero limit as falsy. -/
theorem get_limit_zero_counterexample :
    get sampleRegistry widgetModel (some 0) none none [] sampleStore none =
      Except.ok [sampleRow1, sampleRow2] := by
  rfl

/-- C3 amended: a `get` call with `limit = 0` is treated exactly like a call
with no limit at all (zero is falsy in `if limit:`): no LIMIT is applied, no
error of any kind is raised. -/
theorem get_limit_zero_is_no_limit (registered : List Model) (m : Model)
    (ctr : Option (List String)) (ob : Option (List (String × Bool)))
    (kwargs : List (String × PyValue)) (st : Store) (fault : Option String) :
    get registered m (some 0) ctr ob kwargs st fault =
      get registered m none ctr ob kwargs st fault := by
  simp [get, show truthyLimit (some 0) = false from rfl,
    show truthyLimit none = false from rfl]

/-- C4 counterexample: the default select-all projection does not exclude
the primary-key column: `pkName` is among the selected columns, and a
default `get` returns rows that contain the `id` key. -/
theorem select_all_counterexample :
    widgetModel.pkName ∈ selectColumns widgetModel none ∧
    get sampleRegistry widgetModel none none none [] sampleStore none =
      Except.ok [sampleRow1, sampleRow2] := by
  exact ⟨by decide, by rfl⟩

/-- C4 amended: the default select-all projection (no columns supplied) is
`model.get_columns().keys()` — every declared column in declaration order,
the primary-key column included. -/
theorem select_all_includes_every_column (m : Model) :
    selectColumns m none = m.get_columns ∧
    m.columns.all (fun c => (selectColumns m none).contains c.name) = true := by
  refine ⟨rfl, ?_⟩
  rw [show selectColumns m none = m.get_columns from rfl, List.all_eq_true]
  intro c hc
  exact List.elem_eq_true_of_mem (List.mem_map_of_mem (fun c => c.name) hc)

/-- C6: deleting with an empty filter applies to the whole table: on a store
of N rows it returns N and leaves 0 rows (an empty keyword filter builds no
WHERE clause, which matches every row). -/
theorem delete_empty_filter_deletes_all (registered : List Model) (m : Model) (st : Store)
    (hm : m ∈ registered) :
    delete registered m [] st none = Except.ok (st.length, []) := by
  simp [delete, seqE, assert_model, hm, assert_columns_in_model, rowMatches,
    scopedExec, get_session]

/-- C6 witness: deleting the two-row sample store with no filter returns 2
and empties the table. -/
theorem delete_empty_filter_witness :
    delete sampleRegistry widgetModel [] sampleStore none = Except.ok (2, []) :=
  delete_empty_filter_deletes_all sampleRegistry widgetModel sampleStore (by decide)

/-- C7: for a model outside the registered list, every public operation
(add/get/update/delete/count) fails with the not-mapped error naming the
offending model and listing exactly the registered model names, whatever the
store and driver state (so before touching the database); for a registered
model the check passes. -/
theorem unknown_model_rejected_everywhere (registered : List Model) (m : Model) :
    (m ∉ registered →
      ∀ (st : Store) (fault : Option String) (data : List AddItem) (limit : Option Nat)
        (ctr : Option (List String)) (ob : Option (List (String × Bool)))
        (kwargs vals : List (String × PyValue)) (now : Nat),
        add registered m data st fault =
          Except.error (.unknownModel m.name (registered.map Model.name)) ∧
        get registered m limit ctr ob kwargs st fault =
          Except.error (.unknownModel m.name (registered.map Model.name)) ∧
        update registered m vals kwargs now st fault =
          Except.error (.unknownModel m.name (registered.map Model.name)) ∧
        delete registered m kwargs st fault =
          Except.error (.unknownModel m.name (registered.map Model.name)) ∧
        count registered m kwargs st fault =
          Except.error (.unknownModel m.name (registered.map Model.name))) ∧
    (m ∈ registered → assert_model registered m = Except.ok ()) := by
  constructor
  · intro h st fault data limit ctr ob kwargs vals now
    refine ⟨?_, ?_, ?_, ?_, ?_⟩ <;>
      simp [add, get, update, delete, count, seqE, assert_model, h]
  · intro h
    simp [assert_model, h]

/-- C7 witness: the unregistered `Stray` model is rejected by `count` with
the message fields naming it and listing the one registered name, and the
registered `Widget` model passes the check. -/
theorem unknown_model_witness :
    count sampleRegistry strayModel [] sampleStore none =
      Except.error (.unknownModel "Stray" ["Widget"]) ∧
    assert_model sampleRegistry widgetModel = Except.ok () := by
  constructor
  · exact ((unknown_model_rejected_everywhere sampleRegistry strayModel).1 (by decide)
      sampleStore none [] none none none [] [] 0).2.2.2.2
  · exact (unknown_model_rejected_everywhere sampleRegistry widgetModel).2 (by decide)

/-- C1: once validation has passed, a failure raised inside the transaction
scope is converted by `add` into a structured failure result carrying the
message string, and a clean run returns the success result; the same
failure inside the scope of `get`, `update`, `delete` or `count` propagates
to the caller as a raised exception. -/
theorem exec_failure_handling (registered : List Model) (m : Model)
    (data data' : List AddItem) (st : Store) (limit : Option Nat)
    (ctr : Option (List String)) (ob : Option (List (String × Bool)))
    (kwargs vals : List (String × PyValue)) (now : Nat) (e : String)
    (hm : assert_model registered m = Except.ok ())
    (hconv : convertAddData m data 0 = Except.ok data')
    (hk : assert_columns_in_model m (kwargs.map Prod.fst) false "" = Except.ok ())
    (hctr : assert_columns_in_model m (ctr.getD []) false "" = Except.ok ())
    (hob : assert_columns_in_model m ((ob.getD []).map Prod.fst) false "" = Except.ok ())
    (hv : assert_columns_in_model m (vals.map Prod.fst) true
      " in the updated values when updating instances." = Except.ok ()) :
    add registered m data st (some e) = Except.ok (.failure e, st, data') ∧
    add registered m data st none =
      Except.ok (.success, st ++ data'.map (insertRow m), data') ∧
    get registered m limit ctr ob kwargs st (some e) = Except.error (.execError e) ∧
    update registered m vals kwargs now st (some e) = Except.error (.execError e) ∧
    delete registered m kwargs st (some e) = Except.error (.execError e) ∧
    count registered m kwargs st (some e) = Except.error (.execError e) := by
  refine ⟨?_, ?_, ?_, ?_, ?_, ?_⟩ <;>
    simp [add, get, update, delete, count, seqE, hm, hconv, hk, hctr, hob, hv,
      scopedExec, get_session, renderError]

/-- C1 witness: a concrete valid `add` whose driver raises returns the
structured failure result carrying the raised message. -/
theorem exec_failure_witness :
    add sampleRegistry widgetModel [AddItem.dict [("name", PyValue.vStr "x")]] []
        (some "boom") =
      Except.ok (AddResult.failure "boom", [],
        [AddItem.inst ⟨"Widget", [("name", PyValue.vStr "x")]⟩]) :=
  (exec_failure_handling sampleRegistry widgetModel
    [AddItem.dict [("name", PyValue.vStr "x")]]
    [AddItem.inst ⟨"Widget", [("name", PyValue.vStr "x")]⟩]
    [] none none none [] [("name", PyValue.vStr "y")] 7 "boom"
    rfl rfl rfl rfl rfl rfl).1

/-- C5: for an `update` call that passes validation, the SET mapping has
`updated_at` equal to the injected current UTC time — the caller value for
that column, if any, is overridden — and every row matching the filter ends
up with `updated_at` equal to that time in the resulting store. -/
theorem update_forces_updated_at (registered : List Model) (m : Model)
    (vals kwargs : List (String × PyValue)) (now : Nat) (st : Store)
    (hnd : (vals.map Prod.fst).Nodup)
    (hm : assert_model registered m = Except.ok ())
    (hk : assert_columns_in_model m (kwargs.map Prod.fst) false "" = Except.ok ())
    (hv : assert_columns_in_model m (vals.map Prod.fst) true
      " in the updated values when updating instances." = Except.ok ()) :
    rowGet (setValue vals "updated_at" (PyValue.vDatetime now)) "updated_at" =
      some (PyValue.vDatetime now) ∧
    update registered m vals kwargs now st none =
      Except.ok ((st.filter (fun r => rowMatches kwargs r)).length,
        st.map (fun r => if rowMatches kwargs r then
          applyValues (setValue vals "updated_at" (PyValue.vDatetime now)) r else r)) ∧
    ∀ r : Row, rowGet (applyValues (setValue vals "updated_at" (PyValue.vDatetime now)) r)
      "updated_at" = some (PyValue.vDatetime now) := by
  refine ⟨rowGet_setValue_self vals _ _, ?_, ?_⟩
  · simp [update, seqE, hm, hk, hv, scopedExec, get_session]
  · intro r
    exact rowGet_applyValues_of_rowGet _ _ _ _ (keys_setValue_nodup vals _ _ hnd)
      (rowGet_setValue_self vals _ _)

/-- C5 witness: a concrete update that supplies its own `updated_at` value 5
still leaves every updated row with the injected time 99. -/
theorem update_forces_updated_at_witness :
    rowGet (applyValues (setValue
        [("name", PyValue.vStr "y"), ("updated_at", PyValue.vDatetime 5)]
        "updated_at" (PyValue.vDatetime 99)) sampleRow1) "updated_at" =
      some (PyValue.vDatetime 99) :=
  (update_forces_updated_at sampleRegistry widgetModel
    [("name", PyValue.vStr "y"), ("updated_at", PyValue.vDatetime 5)]
    [("id", PyValue.vInt 1)] 99 sampleStore (by decide) rfl rfl rfl).2.2 sampleRow1

/-- C8 counterexample: validating the column set {name, bogus} against the
sample model reports the entire provided list — including `name`, which does
belong to the schema — not just the offending set difference {bogus}. -/
theorem invalid_columns_report_counterexample :
    assert_columns_in_model widgetModel ["name", "bogus"] false "" =
      Except.error (.invalidColumns ["name", "bogus"] "Widget"
        ["id", "created_at", "updated_at", "name"]) ∧
    "name" ∈ widgetModel.get_columns := by
  exact ⟨rfl, by decide⟩

/-- C8 amended: column validation passes exactly when every provided name is
in the schema, and on failure the error carries the full provided column
list (minus the primary key when `exclude_primary_key` is set) together
with the valid column set — not the set difference alone. -/
theorem assert_columns_reports_full_list (m : Model) (cols : List String) (b : Bool)
    (msg : String) :
    (assert_columns_in_model m cols false "" = Except.ok () ↔
      cols.all (fun c => m.get_columns.contains c) = true) ∧
    ((if b then cols.filter (fun c => c ≠ m.pkName) else cols).all
        (fun c => (if b then m.get_columns.filter (fun c => c ≠ m.pkName)
          else m.get_columns).contains c) = false →
      assert_columns_in_model m cols b msg =
        Except.error (.invalidColumns
          (if b then cols.filter (fun c => c ≠ m.pkName) else cols) m.name
          (if b then m.get_columns.filter (fun c => c ≠ m.pkName)
            else m.get_columns))) := by
  have hdef : assert_columns_in_model m cols false "" =
      if cols.all (fun c => m.get_columns.contains c) = true then Except.ok ()
      else Except.error (.invalidColumns cols m.name m.get_columns) := rfl
  constructor
  · rw [hdef]
    by_cases h : cols.all (fun c => m.get_columns.contains c) = true
    · rw [if_pos h]
      simpa using h
    · rw [if_neg h]
      simpa using h
  · intro h
    have h' : ¬ ((if b then cols.filter (fun c => c ≠ m.pkName) else cols).all
        (fun c => (if b then m.get_columns.filter (fun c => c ≠ m.pkName)
          else m.get_columns).contains c) = true) := by
      rw [h]
      exact Bool.false_ne_true
    simp only [assert_columns_in_model]
    rw [if_neg h']

/-- C8 witness: the amended statement at the counterexample input. -/
theorem assert_columns_reports_full_list_witness :
    assert_columns_in_model widgetModel ["name", "bogus"] false "x" =
      Except.error (.invalidColumns ["name", "bogus"] "Widget"
        ["id", "created_at", "updated_at", "name"]) :=
  (assert_columns_reports_full_list widgetModel ["name", "bogus"] false "x").2 (by decide)

theorem typeErrItems_nil_iff (l : List (ColumnDescriptor × PyValue)) :
    typeErrItems l = [] ↔ l.all specValidPair = true := by
  induction l with
  | nil => simp [typeErrItems]
  | cons p rest ih =>
      obtain ⟨c, v⟩ := p
      by_cases h1 : v = PyValue.vNone ∧ c.nullable = false
      · simp [typeErrItems, h1, specValidPair]
      · by_cases h2 : pyIsinstance v c.pyType = false
        · simp [typeErrItems, h1, h2, specValidPair]
        · simp [typeErrItems, h1, h2, specValidPair, ih]

/-- C9 counterexample: a `None` value for the non-nullable string column
`name` makes the validation fail, but through the does-not-accept-None item,
whose message names only the column: the rendered text nowhere contains
`str`, the name of the expected type, although the claim requires the
failure message to name it. -/
theorem type_error_message_counterexample :
    columns_values_are_same_type ""
        [(⟨"name", PyType.str, false, false⟩, PyValue.vNone)] =
      Except.error (.typeErr "" [.noneNotAccepted "name"]) ∧
    (⟨"name", PyType.str, false, false⟩ : ColumnDescriptor).pyType.typeName = "str" ∧
    strContains (TypeErrItem.noneNotAccepted "name").render "str" = false := by
  refine ⟨rfl, rfl, ?_⟩
  decide

/-- C9 amended: the value-type validation fails exactly when some pair has a
`None` value for a non-nullable column or a value whose runtime type is not
an instance of the declared type; on failure the error carries one item per
offending pair in order — a type-mismatch item names the column, expected
type, value and actual type, while a None-for-non-nullable item names only
the column. -/
theorem type_validation_characterization (title : String)
    (l : List (ColumnDescriptor × PyValue)) :
    (columns_values_are_same_type title l = Except.ok () ↔
      l.all specValidPair = true) ∧
    (l.filterMap itemFor ≠ [] →
      columns_values_are_same_type title l =
        Except.error (.typeErr title (l.filterMap itemFor))) := by
  have hfm := typeErrItems_eq_filterMap l
  constructor
  · rw [← typeErrItems_nil_iff]
    cases hti : typeErrItems l with
    | nil => simp [columns_values_are_same_type, hti]
    | cons a as => simp [columns_values_are_same_type, hti]
  · intro h
    rw [← hfm] at h ⊢
    cases hti : typeErrItems l with
    | nil => exact absurd hti h
    | cons a as => simp [columns_values_are_same_type, hti]

/-- C9 witness: the amended statement at the counterexample input. -/
theorem type_validation_witness :
    columns_values_are_same_type "Checking: "
        [(⟨"name", PyType.str, false, false⟩, PyValue.vNone)] =
      Except.error (.typeErr "Checking: " [TypeErrItem.noneNotAccepted "name"]) :=
  (type_validation_characterization "Checking: "
    [(⟨"name", PyType.str, false, false⟩, PyValue.vNone)]).2 (by decide)

/-- C10: for an `add` call whose data passes validation, the caller list is
rewritten in place before execution: every dict element is replaced by a
constructed instance of the target model at the same position, and the
rewritten list is what the call hands back both when the driver raises
(success false) and when it succeeds. -/
theorem add_rewrites_caller_list (registered : List Model) (m : Model)
    (data data' : List AddItem) (st : Store)
    (hm : assert_model registered m = Except.ok ())
    (hconv : convertAddData m data 0 = Except.ok data') :
    data'.length = data.length ∧
    (∀ k (h1 : k < data.length) (h2 : k < data'.length) pairs,
      data.get ⟨k, h1⟩ = AddItem.dict pairs →
        data'.get ⟨k, h2⟩ = AddItem.inst ⟨m.name, pairs⟩) ∧
    (∀ e, add registered m data st (some e) = Except.ok (.failure e, st, data')) ∧
    add registered m data st none =
      Except.ok (.success, st ++ data'.map (insertRow m), data') := by
  obtain ⟨hlen, hpt⟩ := convertAddData_pointwise m data data' 0 hconv
  refine ⟨hlen, hpt, fun e => ?_, ?_⟩ <;>
    simp [add, seqE, hm, hconv, scopedExec, get_session, renderError]

/-- C10 witness: a concrete `add` of one dict whose driver raises still
returns the list with the dict replaced by the constructed instance. -/
theorem add_rewrites_caller_list_witness :
    add sampleRegistry widgetModel [AddItem.dict [("name", PyValue.vStr "z")]] sampleStore
        (some "oops") =
      Except.ok (AddResult.failure "oops", sampleStore,
        [AddItem.inst ⟨"Widget", [("name", PyValue.vStr "z")]⟩]) :=
  (add_rewrites_caller_list sampleRegistry widgetModel
    [AddItem.dict [("name", PyValue.vStr "z")]]
    [AddItem.inst ⟨"Widget", [("name", PyValue.vStr "z")]⟩]
    sampleStore rfl rfl).2.2.1 "oops"

end MySqlAlchemy
